import Mathlib

set_option linter.unusedVariables false

/-!
Shallow embedding of the pyopenuv client (src/pyopenuv/client.py and
src/pyopenuv/errors.py): request construction, session lifecycle,
backoff/retry behaviour and error classification, together with theorems
checking the natural-language specification against that code.
-/

namespace PyOpenUv

/-! ## Python string containment (`needle in hay`) -/

/-- Does the first list occur at the head of the second list? -/
def leadMatch : List Char → List Char → Bool
  | [], _ => true
  | _ :: _, [] => false
  | a :: as, b :: bs => a == b && leadMatch as bs

/-- Does the first list occur anywhere inside the second list? -/
def subMatch (needle : List Char) : List Char → Bool
  | [] => leadMatch needle []
  | c :: rest => leadMatch needle (c :: rest) || subMatch needle rest

/-- Embedding of the Python expression `needle in hay` on strings. -/
def pyIn (needle hay : String) : Bool :=
  subMatch needle.data hay.data

/-! ## Python dicts restricted to string keys and values

The code only ever reads the string-valued entries of its dicts
(headers, query params, and the `error` key of a JSON body), so a dict is
embedded as an association list with Python assignment semantics:
replace the first binding in place, else append. -/

/-- Embedding of Python dict assignment `d[k] = v`. -/
def dictSet : List (String × String) → String → String → List (String × String)
  | [], k, v => [(k, v)]
  | (k0, v0) :: rest, k, v =>
    if k0 == k then (k, v) :: rest else (k0, v0) :: dictSet rest k v

/-- Embedding of Python dict lookup `d.get(k)`. -/
def dictGet : List (String × String) → String → Option String
  | [], _ => none
  | (k0, v0) :: rest, k => if k0 == k then some v0 else dictGet rest k

/-- A JSON body, restricted to the string-valued fields the code reads. -/
abbrev Payload := List (String × String)

/-! ## Errors (src/pyopenuv/errors.py) -/

/-- The concrete subclasses of OpenUvError declared in errors.py. -/
inductive ErrClass
  | apiUnavailableError
  | invalidApiKeyError
  | rateLimitExceededError
  | requestErrorClass
  deriving DecidableEq

/-- Embedding of ERROR_MESSAGE_MAP from errors.py. -/
def ERROR_MESSAGE_MAP : List (String × ErrClass) :=
  [("User with API Key not found", ErrClass.invalidApiKeyError),
   ("Daily API quota exceeded", ErrClass.rateLimitExceededError)]

/-- Embedding of errors.raise_error: pick the error class whose marker is a
substring of the payload error message, defaulting to RequestError; return
none when the payload has no error key (the Python function returns). -/
def raiseError (endpoint : String) (payload : Payload) : Option (ErrClass × String) :=
  match dictGet payload "error" with
  | none => none
  | some errorMsg =>
    let exc := match ERROR_MESSAGE_MAP.find? (fun p => pyIn p.1 errorMsg) with
      | some p => p.2
      | none => ErrClass.requestErrorClass
    some (exc, "Error while querying " ++ endpoint ++ ": " ++ errorMsg)

/-! ## Transport-level exceptions

The request routine can see three kinds of exception: an aiohttp
ClientResponseError raised by resp.raise_for_status (a ClientError whose
string rendering starts with the status digits), some other aiohttp
ClientError (connection failures, and the ContentTypeError raised when the
body is not JSON), and asyncio.TimeoutError (not a ClientError). The
embedding keeps exactly what the client inspects: the isinstance test
against ClientError and the str rendering. -/

inductive TransportErr
  | responseError (status : Nat) (message : String)
  | clientError (text : String)
  | timeoutError (text : String)
  deriving DecidableEq

/-- Embedding of isinstance(err, ClientError). -/
def TransportErr.isClientError : TransportErr → Bool
  | TransportErr.responseError _ _ => true
  | TransportErr.clientError _ => true
  | TransportErr.timeoutError _ => false

/-- Embedding of str(err); aiohttp renders a ClientResponseError as the
status digits followed by the message (and the URL, omitted here). -/
def TransportErr.str : TransportErr → String
  | TransportErr.responseError status message => toString status ++ ", message=" ++ message
  | TransportErr.clientError text => text
  | TransportErr.timeoutError text => text

/-! ## The client (src/pyopenuv/client.py) -/

def DEFAULT_PROTECTION_HIGH_REPR : String := "3.5"
def DEFAULT_PROTECTION_LOW_REPR : String := "3.5"
def DEFAULT_REQUEST_RETRIES : Nat := 10
def DEFAULT_TIMEOUT : Nat := 30

/-- A Python float as the client uses one: the only operation ever applied
is str(), so the embedding keeps just that rendering. -/
structure PyFloat where
  str : String
  deriving DecidableEq

def DEFAULT_PROTECTION_HIGH : PyFloat := { str := DEFAULT_PROTECTION_HIGH_REPR }
def DEFAULT_PROTECTION_LOW : PyFloat := { str := DEFAULT_PROTECTION_LOW_REPR }

/-- The externally supplied aiohttp ClientSession, reduced to the one bit
the client reads: whether it is closed at call time. -/
structure SessionState where
  closed : Bool
  deriving DecidableEq

/-- The client object. asyncRequestTries is the max_tries baked into
self.async_request by _wrap_request_method; every other field is set once
in __init__. -/
structure Client where
  apiKey : String
  requestRetries : Nat
  session : Option SessionState
  altitude : String
  latitude : String
  longitude : String
  asyncRequestTries : Nat
  deriving DecidableEq

/-- Embedding of Client.__init__: the location floats are stored as their
str() renderings and async_request is wrapped with request_retries. -/
def Client.init (apiKey : String) (latitude longitude : PyFloat) (altitude : PyFloat)
    (requestRetries : Nat) (session : Option SessionState) : Client :=
  { apiKey := apiKey
    requestRetries := requestRetries
    session := session
    altitude := altitude.str
    latitude := latitude.str
    longitude := longitude.str
    asyncRequestTries := requestRetries }

/-- Embedding of Client.disable_request_retries: reassign async_request
wrapped with max_tries 1. -/
def Client.disableRequestRetries (c : Client) : Client :=
  { c with asyncRequestTries := 1 }

/-- Embedding of Client.enable_request_retries: reassign async_request
wrapped with the stored _request_retries. -/
def Client.enableRequestRetries (c : Client) : Client :=
  { c with asyncRequestTries := c.requestRetries }

/-! ## One attempt of _async_request -/

/-- An HTTP response as _async_request consumes one: the status, the reason
message used in the raise_for_status exception rendering, and the parsed
JSON body (none when the body is not JSON, in which case resp.json raises
an aiohttp ContentTypeError). -/
structure Response where
  status : Nat
  message : String
  body : Option Payload
  deriving DecidableEq

/-- What the transport yields for one attempt: either an HTTP response, or
an exception raised before any response (connection failure or timeout). -/
inductive AttemptOutcome
  | response (r : Response)
  | raises (e : TransportErr)
  deriving DecidableEq

/-- The outcome of one call of _async_request. -/
inductive PyResult
  | ok (data : Payload)
  | raised (e : TransportErr)
  deriving DecidableEq

def PyResult.isOk : PyResult → Bool
  | PyResult.ok _ => true
  | PyResult.raised _ => false

/-- Everything observable about one execution of _async_request: the value
returned or exception raised, the headers and query params actually sent,
and the session bookkeeping (whether a transient session was created,
whether it was closed before the routine returned or raised, and whether
the externally supplied session was closed). -/
structure RequestRecord where
  result : PyResult
  headers : List (String × String)
  params : List (String × String)
  usedTransient : Bool
  transientClosed : Bool
  externClosed : Bool
  deriving DecidableEq

/-- Embedding of Client._async_request for a single attempt.

Line by line against the source: the x-access-token header is set into the
(defaulted) headers dict; lat, lng, alt are set into the (defaulted) params
dict; use_running_session is true when a session was supplied and is not
closed, and otherwise a transient ClientSession is created; inside the
async-with block, resp.raise_for_status() raises a ClientResponseError on a
non-success status, then resp.json() raises a ContentTypeError (a
ClientError) when the body is not JSON; only after the block, and only when
no running session was used, is the transient session closed. An exception
raised inside the block therefore propagates before the close statement is
reached, which the record registers as transientClosed := false. -/
def asyncRequest (c : Client) (method endpoint : String)
    (headers0 params0 : List (String × String)) (outcome : AttemptOutcome) :
    RequestRecord :=
  let headers := dictSet headers0 "x-access-token" c.apiKey
  let params := dictSet (dictSet (dictSet params0 "lat" c.latitude)
      "lng" c.longitude) "alt" c.altitude
  let useRunningSession := match c.session with
    | some s => !s.closed
    | none => false
  match outcome with
  | AttemptOutcome.raises e =>
    { result := PyResult.raised e
      headers := headers, params := params
      usedTransient := !useRunningSession
      transientClosed := false
      externClosed := false }
  | AttemptOutcome.response r =>
    if 400 ≤ r.status then
      { result := PyResult.raised (TransportErr.responseError r.status r.message)
        headers := headers, params := params
        usedTransient := !useRunningSession
        transientClosed := false
        externClosed := false }
    else
      match r.body with
      | none =>
        { result := PyResult.raised (TransportErr.clientError
            ("0, message=Attempt to decode JSON with unexpected mimetype"))
          headers := headers, params := params
          usedTransient := !useRunningSession
          transientClosed := false
          externClosed := false }
      | some data =>
        { result := PyResult.ok data
          headers := headers, params := params
          usedTransient := !useRunningSession
          transientClosed := !useRunningSession
          externClosed := false }

/-! ## Giveup classification (_handle_on_giveup, _is_unauthorized_exception) -/

/-- Embedding of Client._is_unauthorized_exception: an isinstance check
against ClientError together with a textual search for 401 or 403 anywhere
in str(err). -/
def isUnauthorizedException (err : TransportErr) : Bool :=
  err.isClientError && (pyIn "401" (TransportErr.str err)
    || pyIn "403" (TransportErr.str err))

/-- The exception _handle_on_giveup raises to the caller. -/
inductive OpenUvError
  | invalidApiKeyError (msg : String) (cause : TransportErr)
  | requestError (cause : TransportErr)
  deriving DecidableEq

/-- Embedding of Client._handle_on_giveup, applied to the exception of the
final failed attempt. -/
def handleOnGiveup (err : TransportErr) : OpenUvError :=
  if isUnauthorizedException err then
    OpenUvError.invalidApiKeyError "Invalid API key" err
  else
    OpenUvError.requestError err

/-! ## The backoff wrapper (_wrap_request_method) -/

/-- The value the wrapped async_request delivers: the decoded payload with
the number of attempts made, or the classified OpenUvError with the number
of attempts made before giving up. -/
inductive CallResult
  | success (data : Payload) (attempts : Nat)
  | failure (e : OpenUvError) (attempts : Nat)
  deriving DecidableEq

/-- Embedding of backoff.on_exception(backoff.expo, (asyncio.TimeoutError,
ClientError), max_tries, on_giveup=_handle_on_giveup) around _async_request.

The world function gives the transport outcome of each attempt, indexed
from 0. The first Nat argument is the number of tries still allowed
(initially max_tries), the second the index of the next attempt. Every
exception _async_request can raise is in the retried tuple, so a failed
attempt is retried until tries reach max_tries, at which point the backoff
library calls on_giveup and _handle_on_giveup raises the classified error.
The client only ever installs max_tries of 1 or request_retries, both at
least 1 in use; the remaining = 0 equation is unreachable filler (the
backoff library would retry without bound there) and no theorem relies on
it. -/
def backoffRun (c : Client) (method endpoint : String)
    (headers0 params0 : List (String × String)) (world : Nat → AttemptOutcome) :
    Nat → Nat → CallResult
  | 0, idx => CallResult.failure (OpenUvError.requestError
      (TransportErr.timeoutError "")) idx
  | Nat.succ n, idx =>
    match (asyncRequest c method endpoint headers0 params0 (world idx)).result with
    | PyResult.ok data => CallResult.success data (idx + 1)
    | PyResult.raised e =>
      match n with
      | 0 => CallResult.failure (handleOnGiveup e) (idx + 1)
      | Nat.succ m => backoffRun c method endpoint headers0 params0 world (Nat.succ m) (idx + 1)

/-- A call through self.async_request, the wrapped method stored on the
client: headers are never passed by the public methods, params may be. -/
def Client.callAsyncRequest (c : Client) (method endpoint : String)
    (params0 : List (String × String)) (world : Nat → AttemptOutcome) : CallResult :=
  backoffRun c method endpoint [] params0 world c.asyncRequestTries 0

/-! ## Public data operations -/

/-- Embedding of Client.uv_forecast. -/
def Client.uvForecast (c : Client) (world : Nat → AttemptOutcome) : CallResult :=
  c.callAsyncRequest "get" "forecast" [] world

/-- Embedding of Client.uvIndex. -/
def Client.uvIndex (c : Client) (world : Nat → AttemptOutcome) : CallResult :=
  c.callAsyncRequest "get" "uv" [] world

/-- The params dict uv_protection_window passes to async_request. -/
def uvProtectionWindowParams (low high : PyFloat) : List (String × String) :=
  [("from", low.str), ("to", high.str)]

/-- Embedding of Client.uv_protection_window with explicit low and high
arguments (the source defaults them to DEFAULT_PROTECTION_LOW and
DEFAULT_PROTECTION_HIGH). -/
def Client.uvProtectionWindow (c : Client) (low high : PyFloat)
    (world : Nat → AttemptOutcome) : CallResult :=
  c.callAsyncRequest "get" "protection" (uvProtectionWindowParams low high) world

/-! ## Status pre-check -/

/-- What a pre-checked call produces: either the ApiUnavailableError
short-circuit, or the result of the real request; alongside it, the list of
endpoints actually queried, in order. -/
inductive PrecheckOutcome
  | apiUnavailable
  | completed (r : CallResult)
  deriving DecidableEq

/-- Modelled from the spec: the configurable pre-request status check is
absent from the source revision of Client.__init__ and _async_request under
src/ (only the tests and the ApiUnavailableError declaration in errors.py
refer to it). Following the spec: before issuing the real request, when the
check is enabled, the status endpoint is queried; if it reports the API
unavailable the call fails fast with ApiUnavailableError without making the
real request; otherwise the real request proceeds as usual. -/
def runWithStatusPrecheck (checkStatusBeforeRequest : Bool)
    (statusReportsAvailable : Bool) (c : Client) (method endpoint : String)
    (params0 : List (String × String)) (world : Nat → AttemptOutcome) :
    PrecheckOutcome × List String :=
  if checkStatusBeforeRequest then
    if statusReportsAvailable then
      (PrecheckOutcome.completed (c.callAsyncRequest method endpoint params0 world),
        ["status", endpoint])
    else
      (PrecheckOutcome.apiUnavailable, ["status"])
  else
    (PrecheckOutcome.completed (c.callAsyncRequest method endpoint params0 world),
      [endpoint])

/-! ## Helper lemmas -/

theorem subMatch_nil (t : List Char) : subMatch [] t = true := by
  cases t <;> simp [subMatch, leadMatch]

theorem leadMatch_append (n h t : List Char) (hm : leadMatch n h = true) :
    leadMatch n (h ++ t) = true := by
  induction n generalizing h with
  | nil => simp [leadMatch]
  | cons a as ih =>
    cases h with
    | nil => simp [leadMatch] at hm
    | cons b bs =>
      simp only [leadMatch, Bool.and_eq_true] at hm
      simp only [List.cons_append, leadMatch, Bool.and_eq_true]
      exact ⟨hm.1, ih bs hm.2⟩

theorem subMatch_append (n h t : List Char) (hm : subMatch n h = true) :
    subMatch n (h ++ t) = true := by
  induction h with
  | nil =>
    cases n with
    | nil => simpa using subMatch_nil t
    | cons a as => simp [subMatch, leadMatch] at hm
  | cons c rest ih =>
    simp only [subMatch, Bool.or_eq_true] at hm
    simp only [List.cons_append, subMatch, Bool.or_eq_true]
    rcases hm with hm | hm
    · exact Or.inl (leadMatch_append _ _ _ hm)
    · exact Or.inr (ih hm)

theorem pyIn_append (needle hay t : String) (hm : pyIn needle hay = true) :
    pyIn needle (hay ++ t) = true := by
  unfold pyIn at hm ⊢
  rw [String.data_append]
  exact subMatch_append _ _ _ hm

/-- A raise_for_status exception for status 401 or 403 always passes the
textual unauthorized test, whatever the reason message. -/
theorem unauthorized_of_status (s : Nat) (msg : String) (hs : s = 401 ∨ s = 403) :
    isUnauthorizedException (TransportErr.responseError s msg) = true := by
  rcases hs with rfl | rfl
  · have h0 : toString (401 : Nat) ++ ", message=" = "401, message=" := by decide
    have h1 : toString (401 : Nat) ++ ", message=" ++ msg
        = "401, message=" ++ msg := by rw [h0]
    simp only [isUnauthorizedException, TransportErr.isClientError, TransportErr.str,
      h1, Bool.true_and, Bool.or_eq_true]
    exact Or.inl (pyIn_append "401" "401, message=" msg (by decide))
  · have h0 : toString (403 : Nat) ++ ", message=" = "403, message=" := by decide
    have h1 : toString (403 : Nat) ++ ", message=" ++ msg
        = "403, message=" ++ msg := by rw [h0]
    simp only [isUnauthorizedException, TransportErr.isClientError, TransportErr.str,
      h1, Bool.true_and, Bool.or_eq_true]
    exact Or.inr (pyIn_append "403" "403, message=" msg (by decide))

theorem dictGet_dictSet_self (d : List (String × String)) (k v : String) :
    dictGet (dictSet d k v) k = some v := by
  induction d with
  | nil => simp [dictSet, dictGet]
  | cons p rest ih =>
    obtain ⟨k0, v0⟩ := p
    cases hk : (k0 == k) with
    | true => simp [dictSet, hk, dictGet]
    | false => simp [dictSet, hk, dictGet, ih]

theorem dictGet_dictSet_ne (d : List (String × String)) (k k2 v : String)
    (h : k2 ≠ k) : dictGet (dictSet d k v) k2 = dictGet d k2 := by
  induction d with
  | nil => simp [dictSet, dictGet, Ne.symm h]
  | cons p rest ih =>
    obtain ⟨k0, v0⟩ := p
    cases hk : (k0 == k) with
    | true =>
      have hk0 : k0 = k := by simpa using hk
      subst hk0
      simp [dictSet, dictGet, Ne.symm h]
    | false =>
      cases hk2 : (k0 == k2) <;> simp [dictSet, hk, dictGet, hk2, ih]

/-- When every attempt of a constant world raises the same exception, the
backoff wrapper makes exactly as many attempts as max_tries allows and then
raises the classified error. -/
theorem backoffRun_const_raised (c : Client) (method endpoint : String)
    (h0 p0 : List (String × String)) (o : AttemptOutcome) (e : TransportErr)
    (ho : (asyncRequest c method endpoint h0 p0 o).result = PyResult.raised e) :
    ∀ rem idx, 1 ≤ rem →
      backoffRun c method endpoint h0 p0 (fun _ => o) rem idx
        = CallResult.failure (handleOnGiveup e) (idx + rem) := by
  intro rem
  induction rem with
  | zero => intro idx h; omega
  | succ n ih =>
    intro idx _
    rw [backoffRun]
    cases n with
    | zero => simp [ho]
    | succ m =>
      simp only [ho]
      rw [ih (idx + 1) (by omega)]
      congr 1
      omega

/-- When the attempts at indices idx, ..., idx+k-1 fail and the attempt at
idx+k succeeds, a budget of at least k+1 remaining tries yields the success
payload after exactly k+1 further attempts. -/
theorem backoffRun_fail_then_ok (c : Client) (method endpoint : String)
    (h0 p0 : List (String × String)) (w : Nat → AttemptOutcome) (p : Payload) :
    ∀ (k rem idx : Nat), k + 1 ≤ rem →
      (∀ i, idx ≤ i → i < idx + k →
        (asyncRequest c method endpoint h0 p0 (w i)).result.isOk = false) →
      (asyncRequest c method endpoint h0 p0 (w (idx + k))).result = PyResult.ok p →
      backoffRun c method endpoint h0 p0 w rem idx
        = CallResult.success p (idx + k + 1) := by
  intro k
  induction k with
  | zero =>
    intro rem idx hrem hfail hok
    cases rem with
    | zero => omega
    | succ n =>
      rw [backoffRun]
      rw [show idx + 0 = idx from rfl] at hok
      simp [hok]
  | succ kk ih =>
    intro rem idx hrem hfail hok
    cases rem with
    | zero => omega
    | succ n =>
      have hf0 : (asyncRequest c method endpoint h0 p0 (w idx)).result.isOk = false :=
        hfail idx (Nat.le_refl _) (by omega)
      obtain ⟨e, he⟩ : ∃ e,
          (asyncRequest c method endpoint h0 p0 (w idx)).result = PyResult.raised e := by
        cases hres : (asyncRequest c method endpoint h0 p0 (w idx)).result with
        | ok d => rw [hres] at hf0; simp [PyResult.isOk] at hf0
        | raised e => exact ⟨e, rfl⟩
      rw [backoffRun]
      cases n with
      | zero => omega
      | succ m =>
        simp only [he]
        have hrec := ih (Nat.succ m) (idx + 1) (by omega)
          (fun i h1 h2 => hfail i (by omega) (by omega))
          (by rw [show idx + 1 + kk = idx + (kk + 1) from by omega]; exact hok)
        rw [hrec]
        congr 1
        omega

/-- Projecting the headers of a request record: identical on every branch
of _async_request. -/
theorem asyncRequest_headers (c : Client) (method endpoint : String)
    (h0 p0 : List (String × String)) (o : AttemptOutcome) :
    (asyncRequest c method endpoint h0 p0 o).headers
      = dictSet h0 "x-access-token" c.apiKey := by
  cases o with
  | raises e => rfl
  | response r =>
    by_cases h : 400 ≤ r.status
    · simp [asyncRequest, h]
    · cases hb : r.body <;> simp [asyncRequest, h, hb]

/-- Projecting the params of a request record: identical on every branch
of _async_request. -/
theorem asyncRequest_params (c : Client) (method endpoint : String)
    (h0 p0 : List (String × String)) (o : AttemptOutcome) :
    (asyncRequest c method endpoint h0 p0 o).params
      = dictSet (dictSet (dictSet p0 "lat" c.latitude) "lng" c.longitude)
          "alt" c.altitude := by
  cases o with
  | raises e => rfl
  | response r =>
    by_cases h : 400 ≤ r.status
    · simp [asyncRequest, h]
    · cases hb : r.body <;> simp [asyncRequest, h, hb]

/-- The retry toggles do not touch any field _async_request reads. -/
theorem asyncRequest_disable (c : Client) (method endpoint : String)
    (h0 p0 : List (String × String)) (o : AttemptOutcome) :
    asyncRequest c.disableRequestRetries method endpoint h0 p0 o
      = asyncRequest c method endpoint h0 p0 o := rfl

/-- One remaining try means the first failure reaches giveup at once. -/
theorem backoffRun_giveup_one (c : Client) (method endpoint : String)
    (h0 p0 : List (String × String)) (w : Nat → AttemptOutcome) (idx : Nat)
    (e : TransportErr)
    (h : (asyncRequest c method endpoint h0 p0 (w idx)).result = PyResult.raised e) :
    backoffRun c method endpoint h0 p0 w 1 idx
      = CallResult.failure (handleOnGiveup e) (idx + 1) := by
  show backoffRun c method endpoint h0 p0 w (Nat.succ 0) idx = _
  rw [backoffRun, h]

/-! ## Concrete fixtures used by counterexamples and witnesses -/

/-- A client built as in the repository tests: no external session, the
default request_retries of 10. -/
def testClient : Client :=
  Client.init "12345" { str := "51.528308" } { str := "-0.3817803" }
    { str := "1609.3" } DEFAULT_REQUEST_RETRIES none

/-- The same client handed an open external session. -/
def testClientWithSession : Client :=
  Client.init "12345" { str := "51.528308" } { str := "-0.3817803" }
    { str := "1609.3" } DEFAULT_REQUEST_RETRIES (some { closed := false })

/-- A 500 response with a non-JSON body. -/
def badOutcome : AttemptOutcome :=
  AttemptOutcome.response { status := 500, message := "Internal Server Error", body := none }

/-- A 403 response as the server sends one for a bad API key. -/
def auth403Outcome : AttemptOutcome :=
  AttemptOutcome.response
    { status := 403, message := "Forbidden",
      body := some [("error", "User with API Key not found")] }

/-- The rate-limited payload of the repository test fixture. -/
def rateLimitPayload : Payload := [("error", "Daily API quota exceeded")]

/-- A 403 response whose body carries the rate-limit marker. -/
def rateLimit403Outcome : AttemptOutcome :=
  AttemptOutcome.response
    { status := 403, message := "Forbidden", body := some rateLimitPayload }

/-! ## Claims -/

/-- C1: the claim says a transient session is closed before the call
returns or raises on every exit path. It fails on the code: the close
statement sits after the async-with block, so when raise_for_status raises
on a non-success status (here a 500), or resp.json raises on a non-JSON
body, the exception propagates with the transient session still open. The
true parts also evaluate as claimed: the success path closes the transient
session, and a caller-supplied open session is not closed. -/
theorem c1_transient_session_leaked_on_failure :
    (asyncRequest testClient "get" "uv" [] [] badOutcome).usedTransient = true
    ∧ (asyncRequest testClient "get" "uv" [] [] badOutcome).transientClosed = false
    ∧ (asyncRequest testClient "get" "uv" [] [] badOutcome).result
        = PyResult.raised (TransportErr.responseError 500 "Internal Server Error")
    ∧ (asyncRequest testClient "get" "uv" [] []
        (AttemptOutcome.response { status := 200, message := "OK", body := none })).transientClosed
        = false
    ∧ (asyncRequest testClient "get" "uv" [] []
        (AttemptOutcome.response
          { status := 200, message := "OK", body := some [("result", "1")] })).transientClosed
        = true
    ∧ (asyncRequest testClientWithSession "get" "uv" [] [] badOutcome).usedTransient = false
    ∧ (asyncRequest testClientWithSession "get" "uv" [] [] badOutcome).externClosed = false :=
  ⟨rfl, rfl, rfl, rfl, rfl, rfl, rfl⟩

/-- C2 counterexample: with the default max_tries of 10 installed, a
request whose every attempt yields a 403 response is attempted 10 times —
backoff.on_exception is installed with no giveup predicate, so the
authorization failure is retried like any ClientError — and only then is
InvalidApiKeyError raised; the claimed single attempt is false. -/
theorem c2_counterexample_auth_failure_is_retried :
    backoffRun testClient "get" "uv" [] [] (fun _ => auth403Outcome) 10 0
      = CallResult.failure (OpenUvError.invalidApiKeyError "Invalid API key"
          (TransportErr.responseError 403 "Forbidden")) 10
    ∧ (10 : Nat) ≠ 1 :=
  ⟨by decide, by decide⟩

/-- C2 (amended): authorization failures are retried like any other
ClientError: with max_tries m ≥ 1 installed, a request whose every attempt
yields a 403 response makes exactly m attempts, and only at giveup is the
final exception classified and raised as InvalidApiKeyError. -/
theorem c2_amended_auth_failures_retried (c : Client) (msg : String)
    (body : Option Payload) (m : Nat) (hm : 1 ≤ m) :
    backoffRun c "get" "uv" [] []
        (fun _ => AttemptOutcome.response { status := 403, message := msg, body := body })
        m 0
      = CallResult.failure (OpenUvError.invalidApiKeyError "Invalid API key"
          (TransportErr.responseError 403 msg)) m := by
  have ho : (asyncRequest c "get" "uv" [] []
      (AttemptOutcome.response { status := 403, message := msg, body := body })).result
      = PyResult.raised (TransportErr.responseError 403 msg) := rfl
  rw [backoffRun_const_raised c "get" "uv" [] [] _ _ ho m 0 hm]
  have hg : handleOnGiveup (TransportErr.responseError 403 msg)
      = OpenUvError.invalidApiKeyError "Invalid API key"
          (TransportErr.responseError 403 msg) := by
    simp [handleOnGiveup, unauthorized_of_status 403 msg (Or.inr rfl)]
  rw [hg]
  congr 1
  omega

theorem c2_amended_witness :
    backoffRun testClient "get" "uv" [] []
        (fun _ => AttemptOutcome.response
          { status := 403, message := "Forbidden", body := none }) 2 0
      = CallResult.failure (OpenUvError.invalidApiKeyError "Invalid API key"
          (TransportErr.responseError 403 "Forbidden")) 2 :=
  c2_amended_auth_failures_retried testClient "Forbidden" none 2 (by decide)

/-- C3: the claim fails on this revision of the client. raise_error in
errors.py does map a payload carrying the quota marker to
RateLimitExceededError (second conjunct), but the client never calls it:
_async_request calls resp.raise_for_status before reading the body, so a
403 response whose body carries the marker raises a ClientResponseError
that is classified — after the retries are exhausted — as
InvalidApiKeyError (first conjunct), contradicting the repository test
test_error_rate_limited, which expects RateLimitExceededError on exactly
this input. -/
theorem c3_rate_limit_marker_never_consulted :
    backoffRun testClient "get" "protection" []
        (uvProtectionWindowParams DEFAULT_PROTECTION_LOW DEFAULT_PROTECTION_HIGH)
        (fun _ => rateLimit403Outcome) 10 0
      = CallResult.failure (OpenUvError.invalidApiKeyError "Invalid API key"
          (TransportErr.responseError 403 "Forbidden")) 10
    ∧ raiseError "protection" rateLimitPayload
      = some (ErrClass.rateLimitExceededError,
          "Error while querying protection: Daily API quota exceeded") :=
  ⟨by decide, by decide⟩

/-- C4: at giveup, an HTTP-client error representing status 401 or 403 is
classified as InvalidApiKeyError, never the generic RequestError, and any
final exception that is not an authorization error is classified as
RequestError wrapping the underlying cause. -/
theorem c4_giveup_classification (s : Nat) (msg : String) (e : TransportErr)
    (hs : s = 401 ∨ s = 403) (he : isUnauthorizedException e = false) :
    handleOnGiveup (TransportErr.responseError s msg)
        = OpenUvError.invalidApiKeyError "Invalid API key"
            (TransportErr.responseError s msg)
    ∧ handleOnGiveup e = OpenUvError.requestError e := by
  constructor
  · simp [handleOnGiveup, unauthorized_of_status s msg hs]
  · simp [handleOnGiveup, he]

theorem c4_witness :
    handleOnGiveup (TransportErr.responseError 403 "Forbidden")
        = OpenUvError.invalidApiKeyError "Invalid API key"
            (TransportErr.responseError 403 "Forbidden")
    ∧ handleOnGiveup (TransportErr.timeoutError "")
        = OpenUvError.requestError (TransportErr.timeoutError "") :=
  c4_giveup_classification 403 "Forbidden" (TransportErr.timeoutError "")
    (Or.inr rfl) (by decide)

/-- C5: with retries enabled and the installed budget admitting at least
N+1 tries, N failing attempts followed by a successful one return the
success payload after exactly N+1 attempts; after disable_request_retries,
a single transient failure reaches giveup immediately, after exactly one
attempt. -/
theorem c5_retry_schedule (c : Client) (method endpoint : String)
    (p0 : List (String × String)) (w w2 : Nat → AttemptOutcome)
    (N : Nat) (p : Payload) (e : TransportErr)
    (hbudget : N + 1 ≤ c.asyncRequestTries)
    (hfail : ∀ i, i < N → (asyncRequest c method endpoint [] p0 (w i)).result.isOk = false)
    (hsucc : (asyncRequest c method endpoint [] p0 (w N)).result = PyResult.ok p)
    (hfail2 : (asyncRequest c method endpoint [] p0 (w2 0)).result = PyResult.raised e) :
    c.callAsyncRequest method endpoint p0 w = CallResult.success p (N + 1)
    ∧ (c.disableRequestRetries).callAsyncRequest method endpoint p0 w2
        = CallResult.failure (handleOnGiveup e) 1 := by
  constructor
  · unfold Client.callAsyncRequest
    have h := backoffRun_fail_then_ok c method endpoint [] p0 w p N
      c.asyncRequestTries 0 hbudget
      (fun i h1 h2 => hfail i (by omega)) (by simpa using hsucc)
    simpa using h
  · unfold Client.callAsyncRequest
    have ht : (Client.disableRequestRetries c).asyncRequestTries = 1 := rfl
    rw [ht]
    have h2 : (asyncRequest c.disableRequestRetries method endpoint [] p0 (w2 0)).result
        = PyResult.raised e := by
      rw [asyncRequest_disable]; exact hfail2
    simpa using backoffRun_giveup_one c.disableRequestRetries method endpoint [] p0 w2 0 e h2

/-- The attempt stream of the C5 witness: one timeout, then a success. -/
def c5World : Nat → AttemptOutcome := fun i =>
  if i == 0 then AttemptOutcome.raises (TransportErr.timeoutError "")
  else AttemptOutcome.response { status := 200, message := "OK", body := some [("result", "ok")] }

theorem c5_retry_schedule_witness :
    testClient.callAsyncRequest "get" "uv" [] c5World
        = CallResult.success [("result", "ok")] 2
    ∧ (testClient.disableRequestRetries).callAsyncRequest "get" "uv" []
        (fun _ => AttemptOutcome.raises (TransportErr.timeoutError ""))
        = CallResult.failure (OpenUvError.requestError (TransportErr.timeoutError "")) 1 :=
  c5_retry_schedule testClient "get" "uv" [] c5World
    (fun _ => AttemptOutcome.raises (TransportErr.timeoutError ""))
    1 [("result", "ok")] (TransportErr.timeoutError "")
    (by decide)
    (fun i hi => by
      have h0 : i = 0 := by omega
      subst h0
      rfl)
    rfl rfl

/-- C6: every executed request carries the x-access-token header with the
stored api key and the lat, lng, alt query parameters with the stored
string renderings of the location; the protection window request keeps its
from and to parameters (str(low), str(high)) alongside them, the defaults
render as 3.5 and 3.5, and uv_protection_window targets the protection
endpoint through the wrapped request method. -/
theorem c6_request_construction (c : Client) (method endpoint : String)
    (h0 p0 : List (String × String)) (o : AttemptOutcome) (low high : PyFloat)
    (w : Nat → AttemptOutcome) :
    dictGet (asyncRequest c method endpoint h0 p0 o).headers "x-access-token"
        = some c.apiKey
    ∧ dictGet (asyncRequest c method endpoint h0 p0 o).params "lat" = some c.latitude
    ∧ dictGet (asyncRequest c method endpoint h0 p0 o).params "lng" = some c.longitude
    ∧ dictGet (asyncRequest c method endpoint h0 p0 o).params "alt" = some c.altitude
    ∧ dictGet (asyncRequest c "get" "protection" []
        (uvProtectionWindowParams low high) o).params "from" = some low.str
    ∧ dictGet (asyncRequest c "get" "protection" []
        (uvProtectionWindowParams low high) o).params "to" = some high.str
    ∧ DEFAULT_PROTECTION_LOW.str = "3.5" ∧ DEFAULT_PROTECTION_HIGH.str = "3.5"
    ∧ c.uvProtectionWindow low high w
        = backoffRun c "get" "protection" [] (uvProtectionWindowParams low high) w
            c.asyncRequestTries 0 := by
  refine ⟨?_, ?_, ?_, ?_, ?_, ?_, rfl, rfl, rfl⟩
  · rw [asyncRequest_headers]
    exact dictGet_dictSet_self h0 _ _
  · rw [asyncRequest_params]
    rw [dictGet_dictSet_ne _ _ _ _ (by decide), dictGet_dictSet_ne _ _ _ _ (by decide)]
    exact dictGet_dictSet_self p0 _ _
  · rw [asyncRequest_params]
    rw [dictGet_dictSet_ne _ _ _ _ (by decide)]
    exact dictGet_dictSet_self _ _ _
  · rw [asyncRequest_params]
    exact dictGet_dictSet_self _ _ _
  · rw [asyncRequest_params]
    rw [dictGet_dictSet_ne _ _ _ _ (by decide), dictGet_dictSet_ne _ _ _ _ (by decide),
      dictGet_dictSet_ne _ _ _ _ (by decide)]
    simp [uvProtectionWindowParams, dictGet]
  · rw [asyncRequest_params]
    rw [dictGet_dictSet_ne _ _ _ _ (by decide), dictGet_dictSet_ne _ _ _ _ (by decide),
      dictGet_dictSet_ne _ _ _ _ (by decide)]
    simp [uvProtectionWindowParams, dictGet]

/-- C7: a transport timeout never escapes unclassified: with max_tries
m ≥ 1 installed, a request that times out on every attempt makes m attempts
and then raises RequestError wrapping the timeout as its cause; a timeout
is not a ClientError, so it is never classified as an authorization
error. -/
theorem c7_timeout_classified_as_request_error (c : Client) (t : String)
    (m : Nat) (hm : 1 ≤ m) :
    backoffRun c "get" "uv" [] []
        (fun _ => AttemptOutcome.raises (TransportErr.timeoutError t)) m 0
      = CallResult.failure
          (OpenUvError.requestError (TransportErr.timeoutError t)) m
    ∧ isUnauthorizedException (TransportErr.timeoutError t) = false := by
  have hno : isUnauthorizedException (TransportErr.timeoutError t) = false := by
    simp [isUnauthorizedException, TransportErr.isClientError]
  constructor
  · have ho : (asyncRequest c "get" "uv" [] []
        (AttemptOutcome.raises (TransportErr.timeoutError t))).result
        = PyResult.raised (TransportErr.timeoutError t) := rfl
    rw [backoffRun_const_raised c "get" "uv" [] [] _ _ ho m 0 hm]
    have hg : handleOnGiveup (TransportErr.timeoutError t)
        = OpenUvError.requestError (TransportErr.timeoutError t) := by
      simp [handleOnGiveup, hno]
    rw [hg]
    congr 1
    omega
  · exact hno

theorem c7_timeout_witness :
    backoffRun testClient "get" "uv" [] []
        (fun _ => AttemptOutcome.raises (TransportErr.timeoutError "")) 10 0
      = CallResult.failure
          (OpenUvError.requestError (TransportErr.timeoutError "")) 10
    ∧ isUnauthorizedException (TransportErr.timeoutError "") = false :=
  c7_timeout_classified_as_request_error testClient "" 10 (by decide)

/-- C8: with the status pre-check enabled and the status endpoint reporting
the API unavailable, the call short-circuits with ApiUnavailableError and
the real data endpoint is never queried (modelled from the spec: the
pre-check is absent from the source revision under src). -/
theorem c8_precheck_short_circuit (c : Client) (method endpoint : String)
    (p0 : List (String × String)) (w : Nat → AttemptOutcome)
    (hep : endpoint ≠ "status") :
    runWithStatusPrecheck true false c method endpoint p0 w
      = (PrecheckOutcome.apiUnavailable, ["status"])
    ∧ endpoint ∉ (runWithStatusPrecheck true false c method endpoint p0 w).2 := by
  refine ⟨rfl, ?_⟩
  simp [runWithStatusPrecheck, hep]

theorem c8_precheck_witness :
    runWithStatusPrecheck true false testClient "get" "uv" [] c5World
      = (PrecheckOutcome.apiUnavailable, ["status"])
    ∧ "uv" ∉ (runWithStatusPrecheck true false testClient "get" "uv" [] c5World).2 :=
  c8_precheck_short_circuit testClient "get" "uv" [] c5World (by decide)

/-- C9: the retry toggles reassign only the wrapped request method: every
stored field (api key, stored retry count, session, altitude, latitude,
longitude) is unchanged by either toggle; disable installs max_tries 1 and
enable restores the constructor-supplied request_retries, also after a
disable. -/
theorem c9_toggles_touch_only_wrapper (c : Client) (apiKey : String)
    (lat lng alt : PyFloat) (retries : Nat) (sess : Option SessionState) :
    (c.disableRequestRetries).apiKey = c.apiKey
    ∧ (c.disableRequestRetries).requestRetries = c.requestRetries
    ∧ (c.disableRequestRetries).session = c.session
    ∧ (c.disableRequestRetries).altitude = c.altitude
    ∧ (c.disableRequestRetries).latitude = c.latitude
    ∧ (c.disableRequestRetries).longitude = c.longitude
    ∧ (c.disableRequestRetries).asyncRequestTries = 1
    ∧ (c.enableRequestRetries).apiKey = c.apiKey
    ∧ (c.enableRequestRetries).requestRetries = c.requestRetries
    ∧ (c.enableRequestRetries).session = c.session
    ∧ (c.enableRequestRetries).altitude = c.altitude
    ∧ (c.enableRequestRetries).latitude = c.latitude
    ∧ (c.enableRequestRetries).longitude = c.longitude
    ∧ (c.enableRequestRetries).asyncRequestTries = c.requestRetries
    ∧ ((Client.init apiKey lat lng alt retries
          sess).disableRequestRetries).enableRequestRetries.asyncRequestTries
        = retries :=
  ⟨rfl, rfl, rfl, rfl, rfl, rfl, rfl, rfl, rfl, rfl, rfl, rfl, rfl, rfl, rfl⟩

/-- C10: the unauthorized test is purely textual: it holds exactly of
ClientErrors whose str rendering contains 401 or 403 as a substring
anywhere, so a ClientError whose text merely happens to contain those
digits (a URL, a numeric parameter) is classified as InvalidApiKeyError at
giveup, while an exception that is not a ClientError — a timeout — is never
classified as unauthorized whatever its text. -/
theorem c10_unauthorized_test_is_textual (e : TransportErr) (t : String)
    (ht : pyIn "401" t = true ∨ pyIn "403" t = true) :
    (isUnauthorizedException e = true ↔
      e.isClientError = true
        ∧ (pyIn "401" (TransportErr.str e) = true
            ∨ pyIn "403" (TransportErr.str e) = true))
    ∧ isUnauthorizedException (TransportErr.clientError t) = true
    ∧ handleOnGiveup (TransportErr.clientError t)
        = OpenUvError.invalidApiKeyError "Invalid API key" (TransportErr.clientError t)
    ∧ isUnauthorizedException (TransportErr.timeoutError t) = false
    ∧ handleOnGiveup (TransportErr.timeoutError t)
        = OpenUvError.requestError (TransportErr.timeoutError t) := by
  have hu : isUnauthorizedException (TransportErr.clientError t) = true := by
    simp only [isUnauthorizedException, TransportErr.isClientError, TransportErr.str,
      Bool.true_and, Bool.or_eq_true]
    exact ht
  have hno : isUnauthorizedException (TransportErr.timeoutError t) = false := by
    simp [isUnauthorizedException, TransportErr.isClientError]
  refine ⟨?_, hu, ?_, hno, ?_⟩
  · simp [isUnauthorizedException, Bool.and_eq_true, Bool.or_eq_true]
  · simp [handleOnGiveup, hu]
  · simp [handleOnGiveup, hno]

theorem c10_unauthorized_witness :
    ((isUnauthorizedException (TransportErr.clientError "connection reset") = true ↔
      (TransportErr.clientError "connection reset").isClientError = true
        ∧ (pyIn "401" (TransportErr.str (TransportErr.clientError "connection reset")) = true
            ∨ pyIn "403" (TransportErr.str (TransportErr.clientError "connection reset")) = true))
    ∧ isUnauthorizedException
        (TransportErr.clientError "GET https://host/403/path failed") = true
    ∧ handleOnGiveup (TransportErr.clientError "GET https://host/403/path failed")
        = OpenUvError.invalidApiKeyError "Invalid API key"
            (TransportErr.clientError "GET https://host/403/path failed")
    ∧ isUnauthorizedException
        (TransportErr.timeoutError "GET https://host/403/path failed") = false
    ∧ handleOnGiveup (TransportErr.timeoutError "GET https://host/403/path failed")
        = OpenUvError.requestError
            (TransportErr.timeoutError "GET https://host/403/path failed")) :=
  c10_unauthorized_test_is_textual (TransportErr.clientError "connection reset")
    "GET https://host/403/path failed" (Or.inr (by decide))

end PyOpenUv
